import Mathlib

/-!
Verification of the time-locker core against its specification.

The Rust sources are shallowly embedded:
* `src/src-tauri/src/crypto.rs`   — round clock, tlock decrypt step logic,
  drand signature fetch failover;
* `src/src-tauri/src/tlock_format.rs` — the `.7z.tlock` container format
  (header, metadata framing, validation, file creation);
* `src/src-tauri/src/progress.rs` — the throttled progress emitter;
* `src/src-tauri/src/error.rs`    — the error taxonomy.

Machine integers are modelled as `Nat` with explicit `% 2^64` / `% 2^32`
at the spots where the Rust `u64`/`u32` arithmetic can wrap (release-build
wrapping semantics; in a debug build the same spots panic, so either way
no value satisfying the original claims is produced there).
Byte strings are `List Nat` (each entry a byte value).  External
collaborators (serde_json, the drand HTTP client, the 7z archiver) are
modelled as parameters of the functions that call them.
-/

-- ===========================================================================
-- error.rs : the error taxonomy (src/src-tauri/src/error.rs:3-46)
-- ===========================================================================

/-- Mirror of `TimeLockerError` from `error.rs`.  Payloads that are
formatted messages in Rust are `String`s here. -/
inductive TimeLockerError where
  | Io (msg : String)
  | Archive (msg : String)
  | Encryption (msg : String)
  | Decryption (msg : String)
  | Parse (msg : String)
  | InvalidKeyFile
  | TimeLockActive
  | Network (msg : String)
  | DrandUnavailable (msg : String)
  | CommandExecution (msg : String)
  | YamlParse (msg : String)
  | DateTimeParse (msg : String)
  | MissingField (msg : String)
  | FileNotFound (msg : String)
deriving DecidableEq, Repr

/-- Discriminator: is this result the `Decryption` error variant? -/
def isDecryptionErr {α : Type} : Except TimeLockerError α → Bool
  | .error (.Decryption _) => true
  | _ => false

/-- Discriminator: is this result the `DrandUnavailable` error variant
(the taxonomy's dedicated beacon-unavailable condition)? -/
def isBeaconUnavailableErr {α : Type} : Except TimeLockerError α → Bool
  | .error (.DrandUnavailable _) => true
  | _ => false

/-- Discriminator: is this result the `TimeLockActive` error variant? -/
def isTimeLockActiveErr {α : Type} : Except TimeLockerError α → Bool
  | .error .TimeLockActive => true
  | _ => false

-- ===========================================================================
-- crypto.rs : round clock (src/src-tauri/src/crypto.rs:22-81)
-- ===========================================================================

/-- `QUICKNET_GENESIS_TIME` (crypto.rs:22). -/
def QUICKNET_GENESIS_TIME : Nat := 1692803367

/-- `QUICKNET_PERIOD` (crypto.rs:25). -/
def QUICKNET_PERIOD : Nat := 3

/-- `u64::MAX + 1`, the modulus of Rust `u64` arithmetic. -/
def U64_MOD : Nat := 18446744073709551616

/-- `timestamp_to_round` (crypto.rs:47-53).  All intermediate values stay
below `2^64` for any `u64` input, so no wrap is possible here. -/
def timestamp_to_round (unix_timestamp : Nat) : Nat :=
  if unix_timestamp ≤ QUICKNET_GENESIS_TIME then 1
  else (unix_timestamp - QUICKNET_GENESIS_TIME) / QUICKNET_PERIOD + 1

/-- `round_to_timestamp` (crypto.rs:62-67).  The `u64` computation
`QUICKNET_GENESIS_TIME + (round - 1) * QUICKNET_PERIOD` can wrap for very
large rounds, hence the explicit `% 2^64` (release-build semantics; a
debug build panics at the same inputs). -/
def round_to_timestamp (round : Nat) : Nat :=
  if round ≤ 1 then QUICKNET_GENESIS_TIME
  else (QUICKNET_GENESIS_TIME + (round - 1) * QUICKNET_PERIOD) % U64_MOD

/-- `datetime_to_round` (crypto.rs:77-81) after the `as u64` cast of the
chrono timestamp: adds the +1 safety margin. -/
def datetime_to_round (timestamp : Nat) : Nat :=
  timestamp_to_round timestamp + 1

/-- The Rust cast `i64 as u64` (two's-complement reinterpretation) used in
`datetime_to_round` (crypto.rs:78) on `datetime.timestamp()`. -/
def u64_of_i64 (i : Int) : Nat := (i % (U64_MOD : Int)).toNat

/-- `is_round_available` (crypto.rs:199-203), with the wall clock `now`
made an explicit argument. -/
def is_round_available (round : Nat) (now : Nat) : Bool :=
  decide (round_to_timestamp round ≤ now)

-- ===========================================================================
-- C1 / C2 theorems
-- ===========================================================================

/-- C1, counterexample: at the representable round `2^63` the `u64`
multiplication in `round_to_timestamp` wraps, and the roundtrip returns
`3074457345618258602`, not `2^63` — so the claim fails for that `r ≥ 1`. -/
theorem c1_roundtrip_counterexample :
    1 ≤ 9223372036854775808 ∧
      timestamp_to_round (round_to_timestamp 9223372036854775808) ≠
        9223372036854775808 := by
  constructor
  · decide
  · decide

/-- C1 (amended): for every round `1 ≤ r ≤ 6148914690672249417` — exactly
the rounds for which `genesis + (r-1)*period` fits in a `u64` — mapping
the round to its publication timestamp and back recovers the round. -/
theorem c1_round_timestamp_roundtrip (r : Nat) (h1 : 1 ≤ r)
    (h2 : r ≤ 6148914690672249417) :
    timestamp_to_round (round_to_timestamp r) = r := by
  rcases le_or_lt r 1 with hr | hr
  · -- r = 1; the genesis timestamp maps back to round 1
    have hr1 : r = 1 := by omega
    subst hr1
    decide
  · -- 2 ≤ r: no wrap occurs, and the division is exact
    have hrt : round_to_timestamp r = 1692803367 + (r - 1) * 3 := by
      unfold round_to_timestamp QUICKNET_GENESIS_TIME QUICKNET_PERIOD U64_MOD
      rw [if_neg (by omega)]
      exact Nat.mod_eq_of_lt (by omega)
    rw [hrt]
    unfold timestamp_to_round QUICKNET_GENESIS_TIME QUICKNET_PERIOD
    rw [if_neg (by omega)]
    have hsub : 1692803367 + (r - 1) * 3 - 1692803367 = (r - 1) * 3 := by omega
    rw [hsub, Nat.mul_div_cancel _ (by omega : 0 < 3)]
    omega

/-- C1 witness: the roundtrip at the concrete round 1000000 (the round
used by the repository's own `test_round_conversion_roundtrip`). -/
theorem c1_round_timestamp_roundtrip_witness :
    timestamp_to_round (round_to_timestamp 1000000) = 1000000 :=
  c1_round_timestamp_roundtrip 1000000 (by decide) (by decide)

/-- C2: for every unlock instant (any `i64` chrono timestamp `i`), the
target round chosen for encryption is `timestamp_to_round t + 1` where
`t` is the `as u64` cast of `i`, and the publication timestamp of that
round is at or after the unlock instant. -/
theorem c2_target_round_after_unlock (i : Int)
    (hlo : -9223372036854775808 ≤ i) (hhi : i < 9223372036854775808) :
    datetime_to_round (u64_of_i64 i) = timestamp_to_round (u64_of_i64 i) + 1 ∧
      i ≤ (round_to_timestamp (datetime_to_round (u64_of_i64 i)) : Int) := by
  refine ⟨rfl, ?_⟩
  rcases le_or_lt 0 i with hpos | hneg
  · -- 0 ≤ i < 2^63: the cast is the identity and no wrap occurs
    have hcast : u64_of_i64 i = i.toNat := by
      unfold u64_of_i64 U64_MOD
      rw [Int.emod_eq_of_lt hpos (by omega)]
    rw [hcast]
    set t := i.toNat with ht
    have htlt : t ≤ 9223372036854775807 := by omega
    have htr : timestamp_to_round t =
        if t ≤ 1692803367 then 1 else (t - 1692803367) / 3 + 1 := rfl
    have key : t ≤ round_to_timestamp (datetime_to_round t) := by
      unfold datetime_to_round
      rcases le_or_lt t 1692803367 with hg | hg
      · rw [htr, if_pos hg]
        have h2 : round_to_timestamp (1 + 1) = 1692803370 := by decide
        omega
      · rw [htr, if_neg (by omega)]
        unfold round_to_timestamp QUICKNET_GENESIS_TIME QUICKNET_PERIOD U64_MOD
        rw [if_neg (by omega)]
        have hlt : 1692803367 + ((t - 1692803367) / 3 + 1 + 1 - 1) * 3 <
            18446744073709551616 := by omega
        rw [Nat.mod_eq_of_lt hlt]
        omega
    have hti : (i : Int) = (t : Int) := by omega
    omega
  · -- i < 0: the publication timestamp is a `u64`, hence nonnegative
    have : (0 : Int) ≤ (round_to_timestamp (datetime_to_round (u64_of_i64 i)) : Int) :=
      Int.ofNat_nonneg _
    omega

/-- C2 witness: at the concrete unlock instant 1700000000
(2023-11-14T22:13:20Z) the chosen round's publication timestamp
1700000001 is at or after the instant. -/
theorem c2_target_round_after_unlock_witness :
    datetime_to_round (u64_of_i64 1700000000) =
        timestamp_to_round (u64_of_i64 1700000000) + 1 ∧
      (1700000000 : Int) ≤
        (round_to_timestamp (datetime_to_round (u64_of_i64 1700000000)) : Int) :=
  c2_target_round_after_unlock 1700000000 (by decide) (by decide)

-- ===========================================================================
-- crypto.rs : decryption step logic (src/src-tauri/src/crypto.rs:220-340)
-- ===========================================================================

/-- Big-endian `u64` from a byte list (`u64::from_be_bytes`, crypto.rs:232). -/
def be64 (l : List Nat) : Nat :=
  l.foldl (fun acc b => acc * 256 + b) 0

/-- The part of `decrypt_with_tlock` / `decrypt_with_tlock_auto` that runs
before any network access: either an early error, or the point where the
beacon signature fetch for the embedded round is invoked. -/
inductive DecryptStep where
  | err (e : TimeLockerError)
  | fetch (round : Nat) (ciphertext : List Nat)
deriving DecidableEq, Repr

/-- Does this step reach the network (the `fetch_drand_signature` call)? -/
def attempts_network : DecryptStep → Bool
  | .fetch _ _ => true
  | .err _ => false

/-- `decrypt_with_tlock` (crypto.rs:220-265) up to its first network
access, on the base64-decoded bytes, with the wall clock explicit.  The
`unlock_time` argument of the Rust function is consulted only for a
non-fatal round-mismatch warning printed to stderr (crypto.rs:236-240)
and cannot change the outcome, so it is not a parameter here. -/
def decrypt_with_tlock_steps (bytes : List Nat) (now : Nat) : DecryptStep :=
  if bytes.length < 9 then .err (.Decryption "Invalid encrypted data: too short")
  else if !(is_round_available (be64 (bytes.take 8)) now) then .err .TimeLockActive
  else .fetch (be64 (bytes.take 8)) (bytes.drop 8)

/-- `decrypt_with_tlock_auto` (crypto.rs:277-316) up to its first network
access; its pre-network logic is byte-for-byte that of
`decrypt_with_tlock` minus the warning. -/
def decrypt_with_tlock_auto_steps (bytes : List Nat) (now : Nat) : DecryptStep :=
  if bytes.length < 9 then .err (.Decryption "Invalid encrypted data: too short")
  else if !(is_round_available (be64 (bytes.take 8)) now) then .err .TimeLockActive
  else .fetch (be64 (bytes.take 8)) (bytes.drop 8)

/-- `get_tlock_info` (crypto.rs:325-340) on the base64-decoded bytes:
returns `(round, unlock_timestamp, is_available)`. -/
def get_tlock_info_model (bytes : List Nat) (now : Nat) :
    Except TimeLockerError (Nat × Nat × Bool) :=
  if bytes.length < 8 then .error (.Decryption "Invalid encrypted data")
  else
    .ok (be64 (bytes.take 8), round_to_timestamp (be64 (bytes.take 8)),
      is_round_available (be64 (bytes.take 8)) now)

/-- C3: for every well-formed LockedSecret (round prefix plus nonempty
ciphertext) whose embedded round is not yet available, decryption stops
with `TimeLockActive` before any network access. -/
theorem c3_timelock_active_no_fetch (bytes : List Nat) (now : Nat)
    (hlen : 9 ≤ bytes.length)
    (hfut : now < round_to_timestamp (be64 (bytes.take 8))) :
    decrypt_with_tlock_steps bytes now = .err .TimeLockActive ∧
      attempts_network (decrypt_with_tlock_steps bytes now) = false := by
  have hav : is_round_available (be64 (bytes.take 8)) now = false := by
    unfold is_round_available
    simp only [decide_eq_false_iff_not]
    omega
  have hstep : decrypt_with_tlock_steps bytes now = .err .TimeLockActive := by
    unfold decrypt_with_tlock_steps
    rw [if_neg (by omega), hav]
    rfl
  exact ⟨hstep, by rw [hstep]; rfl⟩

/-- C3 witness: a 9-byte LockedSecret for round 2 (publication timestamp
1692803370) checked at wall-clock 0. -/
theorem c3_timelock_active_no_fetch_witness :
    decrypt_with_tlock_steps [0, 0, 0, 0, 0, 0, 0, 2, 0] 0 = .err .TimeLockActive ∧
      attempts_network (decrypt_with_tlock_steps [0, 0, 0, 0, 0, 0, 0, 2, 0] 0) = false :=
  c3_timelock_active_no_fetch [0, 0, 0, 0, 0, 0, 0, 2, 0] 0 (by decide) (by decide)

/-- C10: decoded inputs shorter than 9 bytes (including the bare 8-byte
round with empty ciphertext) are rejected by both decryption entry points
with the `Decryption "too short"` error before any availability check or
network access (the outcome is independent of `now`), while
`get_tlock_info` accepts any input of at least 8 bytes. -/
theorem c10_min_ciphertext_length (bytes : List Nat) (now : Nat) :
    (bytes.length < 9 →
      decrypt_with_tlock_steps bytes now =
          .err (.Decryption "Invalid encrypted data: too short") ∧
        decrypt_with_tlock_auto_steps bytes now =
          .err (.Decryption "Invalid encrypted data: too short") ∧
        attempts_network (decrypt_with_tlock_steps bytes now) = false ∧
        attempts_network (decrypt_with_tlock_auto_steps bytes now) = false) ∧
      (8 ≤ bytes.length → ∃ info, get_tlock_info_model bytes now = .ok info) := by
  constructor
  · intro h
    have h1 : decrypt_with_tlock_steps bytes now =
        .err (.Decryption "Invalid encrypted data: too short") := by
      unfold decrypt_with_tlock_steps
      rw [if_pos h]
    have h2 : decrypt_with_tlock_auto_steps bytes now =
        .err (.Decryption "Invalid encrypted data: too short") := by
      unfold decrypt_with_tlock_auto_steps
      rw [if_pos h]
    exact ⟨h1, h2, by rw [h1]; rfl, by rw [h2]; rfl⟩
  · intro h
    unfold get_tlock_info_model
    rw [if_neg (by omega)]
    exact ⟨_, rfl⟩

/-- C10 witness: the 8-byte all-zero input (round 0, empty ciphertext) is
rejected by decryption but accepted by `get_tlock_info`. -/
theorem c10_min_ciphertext_length_witness :
    decrypt_with_tlock_steps [0, 0, 0, 0, 0, 0, 0, 0] 0 =
        .err (.Decryption "Invalid encrypted data: too short") ∧
      (∃ info, get_tlock_info_model [0, 0, 0, 0, 0, 0, 0, 0] 0 = .ok info) :=
  ⟨((c10_min_ciphertext_length [0, 0, 0, 0, 0, 0, 0, 0] 0).1 (by decide)).1,
    (c10_min_ciphertext_length [0, 0, 0, 0, 0, 0, 0, 0] 0).2 (by decide)⟩

-- ===========================================================================
-- crypto.rs : drand signature fetch failover (src/src-tauri/src/crypto.rs:155-190)
-- ===========================================================================

/-- `DRAND_ENDPOINTS` (crypto.rs:28-31), in their fixed order. -/
def DRAND_ENDPOINTS : List String :=
  ["https://api.drand.sh", "https://drand.cloudflare.com"]

/-- The message of the error returned when every endpoint failed
(crypto.rs:185-189). -/
def fetch_err_msg (round : Nat) : String :=
  "Failed to fetch drand signature for round " ++ toString round ++
    " from all endpoints. The round may not have been published yet " ++
    "(time lock still active)."

/-- The endpoint loop of `fetch_drand_signature` (crypto.rs:160-183):
`respond e` is the combined outcome of `HttpClient::new` plus
`client.get round` against endpoint `e` (`none` covers both failure
modes, which the code treats identically by falling through). -/
def fetch_loop (respond : String → Option (List Nat)) (round : Nat) :
    List String → Except TimeLockerError (List Nat)
  | [] => .error (.Decryption (fetch_err_msg round))
  | e :: rest =>
    match respond e with
    | some sig => .ok sig
    | none => fetch_loop respond round rest

/-- `fetch_drand_signature` (crypto.rs:155-190). -/
def fetch_drand_signature (respond : String → Option (List Nat)) (round : Nat) :
    Except TimeLockerError (List Nat) :=
  fetch_loop respond round DRAND_ENDPOINTS

/-- C8, counterexample: when every endpoint fails, the error returned is
the `Decryption` variant — the decryption-failure condition itself — and
not the dedicated `DrandUnavailable` (beacon-unavailable) variant, which
no code path ever constructs.  This falsifies the claim that the
all-endpoints-failed error is distinct from the decryption-failure
condition. -/
theorem c8_error_variant_counterexample :
    isDecryptionErr (fetch_drand_signature (fun _ => none) 42) = true ∧
      isBeaconUnavailableErr (fetch_drand_signature (fun _ => none) 42) = false := by
  exact ⟨rfl, rfl⟩

/-- C8 (amended): the fetch tries the two configured endpoints in their
fixed order and returns the first successful response; it returns an
error only after every endpoint has failed, and that error is the
`Decryption` variant carrying the all-endpoints message — distinct from
`TimeLockActive`, but not the dedicated `DrandUnavailable`
beacon-unavailable variant. -/
theorem c8_failover_order_and_error (respond : String → Option (List Nat))
    (round : Nat) :
    (∀ sig, respond "https://api.drand.sh" = some sig →
        fetch_drand_signature respond round = .ok sig) ∧
      (∀ sig, respond "https://api.drand.sh" = none →
        respond "https://drand.cloudflare.com" = some sig →
        fetch_drand_signature respond round = .ok sig) ∧
      ((∀ e ∈ DRAND_ENDPOINTS, respond e = none) →
        fetch_drand_signature respond round =
          .error (.Decryption (fetch_err_msg round))) ∧
      (∀ err, fetch_drand_signature respond round = .error err →
        err = .Decryption (fetch_err_msg round)) ∧
      isTimeLockActiveErr (fetch_drand_signature respond round) = false ∧
      isBeaconUnavailableErr (fetch_drand_signature respond round) = false := by
  refine ⟨?_, ?_, ?_, ?_, ?_, ?_⟩
  · intro sig h
    simp [fetch_drand_signature, DRAND_ENDPOINTS, fetch_loop, h]
  · intro sig h0 h1
    simp [fetch_drand_signature, DRAND_ENDPOINTS, fetch_loop, h0, h1]
  · intro h
    have h0 := h "https://api.drand.sh" (by simp [DRAND_ENDPOINTS])
    have h1 := h "https://drand.cloudflare.com" (by simp [DRAND_ENDPOINTS])
    simp [fetch_drand_signature, DRAND_ENDPOINTS, fetch_loop, h0, h1]
  · intro err heq
    rcases h0 : respond "https://api.drand.sh" with _ | s0 <;>
      rcases h1 : respond "https://drand.cloudflare.com" with _ | s1 <;>
      simp_all [fetch_drand_signature, DRAND_ENDPOINTS, fetch_loop]
  · rcases h0 : respond "https://api.drand.sh" with _ | s0 <;>
      rcases h1 : respond "https://drand.cloudflare.com" with _ | s1 <;>
      simp [fetch_drand_signature, DRAND_ENDPOINTS, fetch_loop, h0, h1,
        isTimeLockActiveErr]
  · rcases h0 : respond "https://api.drand.sh" with _ | s0 <;>
      rcases h1 : respond "https://drand.cloudflare.com" with _ | s1 <;>
      simp [fetch_drand_signature, DRAND_ENDPOINTS, fetch_loop, h0, h1,
        isBeaconUnavailableErr]

/-- C8 witness: with the first endpoint answering, the fetch returns that
answer. -/
theorem c8_failover_order_and_error_witness :
    fetch_drand_signature (fun _ => some [7]) 5 = .ok [7] :=
  (c8_failover_order_and_error (fun _ => some [7]) 5).1 [7] rfl

-- ===========================================================================
-- tlock_format.rs : metadata and constants (src/src-tauri/src/tlock_format.rs:37-121)
-- ===========================================================================

/-- `TLOCK_MAGIC` (tlock_format.rs:37): the bytes of `"TLOCK01"`. -/
def TLOCK_MAGIC : List Nat := [84, 76, 79, 67, 75, 48, 49]

/-- `TLOCK_VERSION` (tlock_format.rs:40). -/
def TLOCK_VERSION : Nat := 1

/-- `HEADER_SIZE` (tlock_format.rs:43). -/
def HEADER_SIZE : Nat := 24

/-- `MAX_METADATA_SIZE` (tlock_format.rs:46): 1 MiB. -/
def MAX_METADATA_SIZE : Nat := 1048576

/-- `u32::MAX + 1`, the modulus of the Rust `as u32` cast. -/
def U32_MOD : Nat := 4294967296

/-- Mirror of `TlockMetadata` (tlock_format.rs:57-88).  The two
`DateTime<Utc>` fields are carried as integer timestamps; their JSON
encoding, like the rest of the struct's, lives in the external
serde_json collaborator modelled below as a serializer/parser pair. -/
structure TlockMetadata where
  locked : Bool
  created : Int
  unlocks : Int
  duration : String
  original_file : String
  drand_round : Option Nat
  encrypted_key : Option String
  original_size : Option Nat
  is_directory : Bool
deriving DecidableEq, Repr

-- ===========================================================================
-- tlock_format.rs : header and metadata framing
-- (src/src-tauri/src/tlock_format.rs:207-336, 411-427)
-- ===========================================================================

/-- `u32::to_le_bytes` (tlock_format.rs:239). -/
def u32le (n : Nat) : List Nat :=
  [n % 256, n / 256 % 256, n / 65536 % 256, n / 16777216 % 256]

/-- `u32::from_le_bytes` (tlock_format.rs:325). -/
def leU32 (b0 b1 b2 b3 : Nat) : Nat :=
  b0 + 256 * b1 + 65536 * b2 + 16777216 * b3

/-- The metadata-length field decoded from bytes 8..12 of a file
(tlock_format.rs:325). -/
def metadata_len_field (bytes : List Nat) : Nat :=
  leU32 (bytes.getD 8 0) (bytes.getD 9 0) (bytes.getD 10 0) (bytes.getD 11 0)

/-- `TlockArchive::read_and_validate_header` (tlock_format.rs:302-336) on
the file's bytes: a 24-byte read, the magic check, the version check and
the metadata-length bound, returning `(version, metadata_len)`.  The
reserved bytes 12..24 are read but ignored, exactly as in the source.
The Rust `Parse` messages embed formatted detail (the io error text, the
offending numbers); the model keeps their fixed prefixes. -/
def read_and_validate_header (bytes : List Nat) :
    Except TimeLockerError (Nat × Nat) :=
  if bytes.length < HEADER_SIZE then .error (.Parse "Failed to read header")
  else if bytes.take 7 ≠ TLOCK_MAGIC then
    .error (.Parse "Invalid file: not a .7z.tlock file (bad magic bytes)")
  else if TLOCK_VERSION < bytes.getD 7 0 then
    .error (.Parse "Unsupported .7z.tlock version")
  else if MAX_METADATA_SIZE < metadata_len_field bytes then
    .error (.Parse "Metadata length exceeds maximum")
  else .ok (bytes.getD 7 0, metadata_len_field bytes)

/-- The framing part of `TlockArchive::read_metadata`
(tlock_format.rs:260-283): validate the header, then read exactly
`metadata_len` bytes after the 24-byte header (`read_exact`, which fails
when fewer bytes remain).  Returns the raw metadata bytes, before JSON
parsing. -/
def read_metadata_bytes (bytes : List Nat) :
    Except TimeLockerError (List Nat) :=
  match read_and_validate_header bytes with
  | .error e => .error e
  | .ok (_, metaLen) =>
    if (bytes.drop HEADER_SIZE).length < metaLen then
      .error (.Parse "Failed to read metadata")
    else .ok ((bytes.drop HEADER_SIZE).take metaLen)

/-- `TlockArchive::read_metadata` (tlock_format.rs:260-297) on the bytes
of an existing file: framing as above, then the serde_json parse of the
metadata bytes, modelled by the parameter `de`. -/
def read_metadata (de : List Nat → Option TlockMetadata) (bytes : List Nat) :
    Except TimeLockerError TlockMetadata :=
  match read_metadata_bytes bytes with
  | .error e => .error e
  | .ok mb =>
    match de mb with
    | some m => .ok m
    | none => .error (.Parse "Invalid metadata JSON")

/-- `TlockArchive::validate` (tlock_format.rs:414-427) on the bytes of an
existing, readable file: `Ok(true)` when `read_and_validate_header`
succeeds, `Ok(false)` when it returns an error — the header outcome is
swallowed, and nothing past the 24-byte header is examined. -/
def validate (bytes : List Nat) : Bool :=
  match read_and_validate_header bytes with
  | .ok _ => true
  | .error _ => false

/-- `TlockArchive::write_header` (tlock_format.rs:231-245): magic,
version, little-endian length, 12 reserved zero bytes. -/
def write_header (metaLen : Nat) : List Nat :=
  TLOCK_MAGIC ++ [TLOCK_VERSION] ++ u32le metaLen ++ List.replicate 12 0

/-- The bytes written by `TlockArchive::write_tlock_file`
(tlock_format.rs:207-228) when every write succeeds: header, metadata
JSON, payload.  The header's length field carries
`metadata_json.len() as u32`, hence the `% 2^32`. -/
def write_tlock_file (metadata_json payload : List Nat) : List Nat :=
  write_header (metadata_json.length % U32_MOD) ++ metadata_json ++ payload

/-- The post-archiver part of `TlockArchive::create`
(tlock_format.rs:174-204) in terms of the produced file bytes:
`metadata_json` is serde_json's output for the metadata, `payload` the
archiver's sealed bytes; the size check uses the `as u32` cast of the
JSON length exactly as the source does. -/
def create_file_bytes (metadata_json payload : List Nat) :
    Except TimeLockerError (List Nat) :=
  if MAX_METADATA_SIZE < metadata_json.length % U32_MOD then
    .error (.Parse "Metadata too large")
  else .ok (write_tlock_file metadata_json payload)

/-- Parsing a header that `write_header` produced (with anything after
it) succeeds and recovers the length field, for lengths within bounds. -/
theorem read_header_of_write (n : Nat) (rest : List Nat) (hn : n ≤ 1048576) :
    read_and_validate_header (write_header n ++ rest) = .ok (1, n) := by
  have hb : write_header n ++ rest =
      84 :: 76 :: 79 :: 67 :: 75 :: 48 :: 49 :: 1 :: (n % 256) ::
        (n / 256 % 256) :: (n / 65536 % 256) :: (n / 16777216 % 256) ::
        0 :: 0 :: 0 :: 0 :: 0 :: 0 :: 0 :: 0 :: 0 :: 0 :: 0 :: 0 :: rest := rfl
  rw [hb]
  have hm : metadata_len_field
      (84 :: 76 :: 79 :: 67 :: 75 :: 48 :: 49 :: 1 :: (n % 256) ::
        (n / 256 % 256) :: (n / 65536 % 256) :: (n / 16777216 % 256) ::
        0 :: 0 :: 0 :: 0 :: 0 :: 0 :: 0 :: 0 :: 0 :: 0 :: 0 :: 0 :: rest) = n := by
    have he : metadata_len_field
        (84 :: 76 :: 79 :: 67 :: 75 :: 48 :: 49 :: 1 :: (n % 256) ::
          (n / 256 % 256) :: (n / 65536 % 256) :: (n / 16777216 % 256) ::
          0 :: 0 :: 0 :: 0 :: 0 :: 0 :: 0 :: 0 :: 0 :: 0 :: 0 :: 0 :: rest) =
        n % 256 + 256 * (n / 256 % 256) + 65536 * (n / 65536 % 256) +
          16777216 * (n / 16777216 % 256) := rfl
    rw [he]
    omega
  unfold read_and_validate_header
  split_ifs with h1 h2 h3 h4
  · exfalso
    simp only [List.length_cons, HEADER_SIZE] at h1
    omega
  · exact absurd rfl h2
  · exact absurd h3 (by decide : ¬ (1 : Nat) < 1)
  · exfalso
    rw [hm] at h4
    unfold MAX_METADATA_SIZE at h4
    omega
  · rw [hm]
    rfl

-- ===========================================================================
-- Helper lemmas for the header / framing case analysis
-- ===========================================================================

/-- Header outcome: file shorter than 24 bytes. -/
theorem header_err_short (bytes : List Nat) (h : bytes.length < HEADER_SIZE) :
    read_and_validate_header bytes = .error (.Parse "Failed to read header") := by
  unfold read_and_validate_header
  rw [if_pos h]

/-- Header outcome: wrong magic bytes. -/
theorem header_err_magic (bytes : List Nat) (h1 : HEADER_SIZE ≤ bytes.length)
    (h2 : bytes.take 7 ≠ TLOCK_MAGIC) :
    read_and_validate_header bytes =
      .error (.Parse "Invalid file: not a .7z.tlock file (bad magic bytes)") := by
  unfold read_and_validate_header
  rw [if_neg (by omega), if_pos h2]

/-- Header outcome: unsupported (future) version byte. -/
theorem header_err_version (bytes : List Nat) (h1 : HEADER_SIZE ≤ bytes.length)
    (h2 : bytes.take 7 = TLOCK_MAGIC) (h3 : TLOCK_VERSION < bytes.getD 7 0) :
    read_and_validate_header bytes =
      .error (.Parse "Unsupported .7z.tlock version") := by
  unfold read_and_validate_header
  rw [if_neg (by omega), if_neg (not_ne_iff.mpr h2), if_pos h3]

/-- Header outcome: metadata-length field above the 1 MiB bound. -/
theorem header_err_toolong (bytes : List Nat) (h1 : HEADER_SIZE ≤ bytes.length)
    (h2 : bytes.take 7 = TLOCK_MAGIC) (h3 : bytes.getD 7 0 ≤ TLOCK_VERSION)
    (h4 : MAX_METADATA_SIZE < metadata_len_field bytes) :
    read_and_validate_header bytes =
      .error (.Parse "Metadata length exceeds maximum") := by
  unfold read_and_validate_header
  rw [if_neg (by omega), if_neg (not_ne_iff.mpr h2), if_neg (by omega), if_pos h4]

/-- Header outcome: all four checks pass. -/
theorem header_ok (bytes : List Nat) (h1 : HEADER_SIZE ≤ bytes.length)
    (h2 : bytes.take 7 = TLOCK_MAGIC) (h3 : bytes.getD 7 0 ≤ TLOCK_VERSION)
    (h4 : metadata_len_field bytes ≤ MAX_METADATA_SIZE) :
    read_and_validate_header bytes =
      .ok (bytes.getD 7 0, metadata_len_field bytes) := by
  unfold read_and_validate_header
  rw [if_neg (by omega), if_neg (not_ne_iff.mpr h2), if_neg (by omega),
    if_neg (by omega)]

/-- A header error propagates through `read_metadata_bytes`. -/
theorem read_metadata_bytes_err_of_header (bytes : List Nat)
    (e : TimeLockerError) (h : read_and_validate_header bytes = .error e) :
    read_metadata_bytes bytes = .error e := by
  unfold read_metadata_bytes
  rw [h]

/-- `read_metadata_bytes` after a successful header parse. -/
theorem read_metadata_bytes_of_header_ok (bytes : List Nat) (v metaLen : Nat)
    (h : read_and_validate_header bytes = .ok (v, metaLen)) :
    read_metadata_bytes bytes =
      if (bytes.drop HEADER_SIZE).length < metaLen then
        .error (.Parse "Failed to read metadata")
      else .ok ((bytes.drop HEADER_SIZE).take metaLen) := by
  unfold read_metadata_bytes
  rw [h]

/-- A framing error propagates through `read_metadata`. -/
theorem read_metadata_err_of_bytes (de : List Nat → Option TlockMetadata)
    (bytes : List Nat) (e : TimeLockerError)
    (h : read_metadata_bytes bytes = .error e) :
    read_metadata de bytes = .error e := by
  unfold read_metadata
  rw [h]

/-- `read_metadata` hands the framed metadata bytes to the JSON parser. -/
theorem read_metadata_of_bytes_ok (de : List Nat → Option TlockMetadata)
    (bytes mb : List Nat) (h : read_metadata_bytes bytes = .ok mb) :
    read_metadata de bytes =
      match de mb with
      | some m => .ok m
      | none => .error (.Parse "Invalid metadata JSON") := by
  unfold read_metadata
  rw [h]

/-- `validate` reports true exactly on a successful header parse. -/
theorem validate_eq_true_of (bytes : List Nat) (v m : Nat)
    (h : read_and_validate_header bytes = .ok (v, m)) : validate bytes = true := by
  unfold validate
  rw [h]

/-- `validate` swallows a header error into `false`. -/
theorem validate_eq_false_of (bytes : List Nat) (e : TimeLockerError)
    (h : read_and_validate_header bytes = .error e) : validate bytes = false := by
  unfold validate
  rw [h]

-- ===========================================================================
-- C4 / C5 / C6 theorems
-- ===========================================================================

/-- The framing roundtrip: reading back the metadata bytes of a written
container recovers exactly the serialized JSON, for any payload. -/
theorem read_metadata_bytes_of_write (mj payload : List Nat)
    (h : mj.length ≤ MAX_METADATA_SIZE) :
    read_metadata_bytes (write_tlock_file mj payload) = .ok mj := by
  have hmax : mj.length ≤ 1048576 := h
  have hlen32 : mj.length % U32_MOD = mj.length := by
    unfold U32_MOD
    omega
  have hhdr : read_and_validate_header (write_tlock_file mj payload) =
      .ok (1, mj.length) := by
    unfold write_tlock_file
    rw [hlen32, List.append_assoc]
    exact read_header_of_write _ _ hmax
  rw [read_metadata_bytes_of_header_ok _ _ _ hhdr]
  have hdrop : (write_tlock_file mj payload).drop HEADER_SIZE = mj ++ payload := by
    unfold write_tlock_file
    rw [hlen32, List.append_assoc]
    have h24 : (write_header mj.length).length = HEADER_SIZE := rfl
    rw [← h24, List.drop_left]
  rw [hdrop]
  rw [if_neg (by simp only [List.length_append]; omega)]
  rw [List.take_left]

/-- C4: for every metadata value, source payload and serde codec that
round-trips it within the 1 MiB bound, `create` succeeds and reading the
produced container back returns metadata structurally equal to the
original — for every payload (the read never looks at the payload bytes)
and with no password anywhere in the read path (the password is consumed
only by the archiver that produced `payload`). -/
theorem c4_create_read_metadata_roundtrip (ser : TlockMetadata → List Nat)
    (de : List Nat → Option TlockMetadata) (meta : TlockMetadata)
    (payload : List Nat) (hrt : de (ser meta) = some meta)
    (hlen : (ser meta).length ≤ MAX_METADATA_SIZE) :
    create_file_bytes (ser meta) payload =
        .ok (write_tlock_file (ser meta) payload) ∧
      read_metadata de (write_tlock_file (ser meta) payload) = .ok meta := by
  constructor
  · unfold create_file_bytes
    rw [if_neg (by unfold U32_MOD MAX_METADATA_SIZE at *; omega)]
  · rw [read_metadata_of_bytes_ok de _ (ser meta)
      (read_metadata_bytes_of_write _ _ hlen)]
    rw [hrt]

/-- A fixed sample metadata value used in concrete instantiations. -/
def sampleMetadata : TlockMetadata :=
  { locked := true
    created := 1700000000
    unlocks := 1700003600
    duration := "1h"
    original_file := "secret.txt"
    drand_round := some 99999
    encrypted_key := some "AGE_ENCRYPTED_KEY"
    original_size := none
    is_directory := false }

/-- C4 witness: a one-byte JSON blob and two-byte payload with a codec
that round-trips the sample metadata. -/
theorem c4_create_read_metadata_roundtrip_witness :
    create_file_bytes [123] [9, 9] = .ok (write_tlock_file [123] [9, 9]) ∧
      read_metadata (fun _ => some sampleMetadata) (write_tlock_file [123] [9, 9]) =
        .ok sampleMetadata :=
  c4_create_read_metadata_roundtrip (fun _ => [123])
    (fun _ => some sampleMetadata) sampleMetadata [9, 9] rfl (by decide)

/-- C5, counterexample: a file consisting of exactly a valid 24-byte
header that declares 5 metadata bytes (so it has fewer remaining bytes
than the declared metadata length).  The claim requires `validate` to
fail with a parse error on such a file; instead `validate` reports the
file valid, because it checks nothing past the header. -/
theorem c5_validate_counterexample :
    (write_header 5).length - HEADER_SIZE < metadata_len_field (write_header 5) ∧
      read_metadata_bytes (write_header 5) =
        .error (.Parse "Failed to read metadata") ∧
      validate (write_header 5) = true := by
  refine ⟨by decide, rfl, rfl⟩

/-- C5 (amended): `read_metadata` fails with a `Parse` error — and, the
functions being total, without panicking — in all five cases (file
shorter than 24 bytes; wrong magic; version byte above the supported
maximum; metadata-length field above 1 MiB; fewer remaining bytes than
the declared metadata length); `validate` returns `false` (rather than a
parse error) in the four header-detectable cases but returns `true` when
only the metadata bytes are missing; and a metadata length of exactly
zero passes header validation, with the empty byte string still handed
to the JSON parser (failing when the parser rejects empty input), not
special-cased as "no metadata". -/
theorem c5_truncation_and_corruption (de : List Nat → Option TlockMetadata)
    (bytes : List Nat) :
    (bytes.length < HEADER_SIZE →
      read_metadata de bytes = .error (.Parse "Failed to read header") ∧
        validate bytes = false) ∧
      (HEADER_SIZE ≤ bytes.length → bytes.take 7 ≠ TLOCK_MAGIC →
        read_metadata de bytes =
            .error (.Parse "Invalid file: not a .7z.tlock file (bad magic bytes)") ∧
          validate bytes = false) ∧
      (HEADER_SIZE ≤ bytes.length → bytes.take 7 = TLOCK_MAGIC →
        TLOCK_VERSION < bytes.getD 7 0 →
        read_metadata de bytes = .error (.Parse "Unsupported .7z.tlock version") ∧
          validate bytes = false) ∧
      (HEADER_SIZE ≤ bytes.length → bytes.take 7 = TLOCK_MAGIC →
        bytes.getD 7 0 ≤ TLOCK_VERSION →
        MAX_METADATA_SIZE < metadata_len_field bytes →
        read_metadata de bytes = .error (.Parse "Metadata length exceeds maximum") ∧
          validate bytes = false) ∧
      (HEADER_SIZE ≤ bytes.length → bytes.take 7 = TLOCK_MAGIC →
        bytes.getD 7 0 ≤ TLOCK_VERSION →
        metadata_len_field bytes ≤ MAX_METADATA_SIZE →
        bytes.length - HEADER_SIZE < metadata_len_field bytes →
        read_metadata de bytes = .error (.Parse "Failed to read metadata") ∧
          validate bytes = true) ∧
      (HEADER_SIZE ≤ bytes.length → bytes.take 7 = TLOCK_MAGIC →
        bytes.getD 7 0 ≤ TLOCK_VERSION → metadata_len_field bytes = 0 →
        read_metadata_bytes bytes = .ok [] ∧
          (de [] = none →
            read_metadata de bytes = .error (.Parse "Invalid metadata JSON"))) := by
  refine ⟨?_, ?_, ?_, ?_, ?_, ?_⟩
  · intro h
    have he := header_err_short bytes h
    exact ⟨read_metadata_err_of_bytes de bytes _
        (read_metadata_bytes_err_of_header bytes _ he),
      validate_eq_false_of bytes _ he⟩
  · intro h1 h2
    have he := header_err_magic bytes h1 h2
    exact ⟨read_metadata_err_of_bytes de bytes _
        (read_metadata_bytes_err_of_header bytes _ he),
      validate_eq_false_of bytes _ he⟩
  · intro h1 h2 h3
    have he := header_err_version bytes h1 h2 h3
    exact ⟨read_metadata_err_of_bytes de bytes _
        (read_metadata_bytes_err_of_header bytes _ he),
      validate_eq_false_of bytes _ he⟩
  · intro h1 h2 h3 h4
    have he := header_err_toolong bytes h1 h2 h3 h4
    exact ⟨read_metadata_err_of_bytes de bytes _
        (read_metadata_bytes_err_of_header bytes _ he),
      validate_eq_false_of bytes _ he⟩
  · intro h1 h2 h3 h4 h5
    have he := header_ok bytes h1 h2 h3 h4
    have hb : read_metadata_bytes bytes =
        .error (.Parse "Failed to read metadata") := by
      rw [read_metadata_bytes_of_header_ok bytes _ _ he]
      rw [if_pos (by simp only [List.length_drop]; omega)]
    exact ⟨read_metadata_err_of_bytes de bytes _ hb,
      validate_eq_true_of bytes _ _ he⟩
  · intro h1 h2 h3 h4
    have he := header_ok bytes h1 h2 h3 (by omega)
    have hb : read_metadata_bytes bytes = .ok [] := by
      rw [read_metadata_bytes_of_header_ok bytes _ _ he, h4]
      rw [if_neg (by omega)]
      rfl
    refine ⟨hb, fun hde => ?_⟩
    rw [read_metadata_of_bytes_ok de bytes [] hb, hde]

/-- C5 witness: the empty file is shorter than 24 bytes; `read_metadata`
fails with the header parse error and `validate` reports false. -/
theorem c5_truncation_and_corruption_witness :
    read_metadata (fun _ => none) [] = .error (.Parse "Failed to read header") ∧
      validate [] = false :=
  (c5_truncation_and_corruption (fun _ => none) []).1 (by decide)

/-- C6, counterexample: a file that is exactly a valid 24-byte header
declaring 2 metadata bytes.  `validate` reports it structurally valid,
yet reading the metadata fails — even under a JSON parser that accepts
every input — because the metadata bytes are absent.  So `validate`
succeeding does not imply that the metadata JSON parses, falsifying the
claimed equivalence. -/
theorem c6_validate_counterexample :
    validate (write_header 2) = true ∧
      read_metadata (fun _ => some sampleMetadata) (write_header 2) =
        .error (.Parse "Failed to read metadata") := by
  exact ⟨rfl, rfl⟩

/-- C6 (amended): `validate` succeeds exactly when the 24-byte header
parses — at least 24 bytes, correct magic, supported version,
metadata-length field within the 1 MiB bound.  It examines nothing past
the header: neither the metadata JSON (see the counterexample) nor the
payload, and it never attempts decryption (the model of `validate`
contains no decryption step at all). -/
theorem c6_validate_iff_header (bytes : List Nat) :
    validate bytes = true ↔
      HEADER_SIZE ≤ bytes.length ∧ bytes.take 7 = TLOCK_MAGIC ∧
        bytes.getD 7 0 ≤ TLOCK_VERSION ∧
        metadata_len_field bytes ≤ MAX_METADATA_SIZE := by
  constructor
  · intro h
    by_cases ha : bytes.length < HEADER_SIZE
    · rw [validate_eq_false_of bytes _ (header_err_short bytes ha)] at h
      simp at h
    by_cases hb : bytes.take 7 = TLOCK_MAGIC
    case neg =>
      rw [validate_eq_false_of bytes _
        (header_err_magic bytes (by omega) hb)] at h
      simp at h
    by_cases hc : TLOCK_VERSION < bytes.getD 7 0
    · rw [validate_eq_false_of bytes _
        (header_err_version bytes (by omega) hb hc)] at h
      simp at h
    by_cases hd : MAX_METADATA_SIZE < metadata_len_field bytes
    · rw [validate_eq_false_of bytes _
        (header_err_toolong bytes (by omega) hb (by omega) hd)] at h
      simp at h
    exact ⟨by omega, hb, by omega, by omega⟩
  · rintro ⟨ha, hb, hc, hd⟩
    exact validate_eq_true_of bytes _ _ (header_ok bytes ha hb hc hd)

/-- C6 witness: a header with zero-length metadata field validates, via
the amended characterization. -/
theorem c6_validate_iff_header_witness : validate (write_header 0) = true :=
  (c6_validate_iff_header (write_header 0)).mpr (by decide)

-- ===========================================================================
-- tlock_format.rs : create under I/O fault injection
-- (src/src-tauri/src/tlock_format.rs:157-228)
-- ===========================================================================

/-- The byte chunks produced by the successive write operations of
`write_tlock_file` (tlock_format.rs:207-228): magic, version byte,
little-endian length, reserved bytes (the four `write_all`s of
`write_header`), the metadata `write_all`, and the payload `io::copy`. -/
def tlockFileChunks (metadata_json payload : List Nat) : List (List Nat) :=
  [TLOCK_MAGIC, [TLOCK_VERSION], u32le (metadata_json.length % U32_MOD),
    List.replicate 12 0, metadata_json, payload]

/-- `write_tlock_file` with an injected I/O fault.  `failStep = none`
means every operation succeeds; `some 0` means `File::create` itself
fails (no destination file appears); `some (k+1)` means the `k`-th write
operation (0-indexed over `tlockFileChunks`) fails, leaving the
destination file holding the chunks completed before it.  The second
component is the destination file's content (`none` = no file).  The
source deletes nothing on any of these paths. -/
def write_tlock_file_fs (metadata_json payload : List Nat)
    (failStep : Option Nat) : Except TimeLockerError Unit × Option (List Nat) :=
  match failStep with
  | none => (.ok (), some (List.flatten (tlockFileChunks metadata_json payload)))
  | some 0 => (.error (.Io "failed to create destination file"), none)
  | some (k + 1) => (.error (.Io "write failed"),
      some (List.flatten ((tlockFileChunks metadata_json payload).take k)))

/-- The post-archiver part of `TlockArchive::create`
(tlock_format.rs:174-204) with its file-system effect on the destination
path: `ser_result` is serde_json's outcome (`none` = serialization
failed), `failStep` the injected write fault.  The temp 7z file's
removal (tlock_format.rs:180,196) does not touch the destination and is
not modelled; no branch removes the destination file. -/
def create_fs (ser_result : Option (List Nat)) (payload : List Nat)
    (failStep : Option Nat) : Except TimeLockerError Unit × Option (List Nat) :=
  match ser_result with
  | none => (.error (.Parse "Failed to serialize metadata"), none)
  | some metadata_json =>
    if MAX_METADATA_SIZE < metadata_json.length % U32_MOD then
      (.error (.Parse "Metadata too large"), none)
    else write_tlock_file_fs metadata_json payload failStep

/-- C7, counterexample: serialization and the size check pass for the
one-byte metadata `[123]`, but the payload copy (write operation 5)
fails.  `create` propagates the error while the destination file still
holds the truncated prefix — header plus metadata, no payload — which is
neither absence nor the complete file, contradicting the claim that no
truncated destination file remains. -/
theorem c7_partial_file_counterexample :
    (create_fs (some [123]) [7, 8, 9] (some 6)).1 = .error (.Io "write failed") ∧
      (create_fs (some [123]) [7, 8, 9] (some 6)).2 =
        some (write_header 1 ++ [123]) ∧
      (create_fs (some [123]) [7, 8, 9] (some 6)).2 ≠ none ∧
      (create_fs (some [123]) [7, 8, 9] (some 6)).2 ≠
        some (write_tlock_file [123] [7, 8, 9]) := by
  refine ⟨rfl, by decide, by decide, by decide⟩

/-- C7 (amended): a failure of metadata serialization or of the size
check happens before the destination file is opened and leaves no
destination file; when every write succeeds the complete container is
written; but when a write operation inside `write_tlock_file` fails
after `File::create`, the error is propagated with the partially written
destination file left in place (the code removes only the temp 7z
archive, never the destination), so a truncated container remains. -/
theorem c7_create_no_cleanup (metadata_json payload : List Nat)
    (failStep : Option Nat) :
    create_fs none payload failStep =
        (.error (.Parse "Failed to serialize metadata"), none) ∧
      (MAX_METADATA_SIZE < metadata_json.length % U32_MOD →
        create_fs (some metadata_json) payload failStep =
          (.error (.Parse "Metadata too large"), none)) ∧
      (metadata_json.length % U32_MOD ≤ MAX_METADATA_SIZE →
        create_fs (some metadata_json) payload none =
          (.ok (), some (write_tlock_file metadata_json payload))) ∧
      (∀ k, metadata_json.length % U32_MOD ≤ MAX_METADATA_SIZE →
        (create_fs (some metadata_json) payload (some (k + 1))).1 =
            .error (.Io "write failed") ∧
          (create_fs (some metadata_json) payload (some (k + 1))).2 =
            some (List.flatten ((tlockFileChunks metadata_json payload).take k))) := by
  have hjoin : List.flatten (tlockFileChunks metadata_json payload) =
      write_tlock_file metadata_json payload := by
    simp [tlockFileChunks, write_tlock_file, write_header, List.append_assoc]
  refine ⟨rfl, ?_, ?_, ?_⟩
  · intro h
    simp only [create_fs]
    rw [if_pos h]
  · intro h
    have hn : ¬ MAX_METADATA_SIZE < metadata_json.length % U32_MOD := by omega
    simp only [create_fs]
    rw [if_neg hn]
    simp only [write_tlock_file_fs]
    rw [hjoin]
  · intro k h
    have hn : ¬ MAX_METADATA_SIZE < metadata_json.length % U32_MOD := by omega
    simp only [create_fs]
    rw [if_neg hn]
    exact ⟨rfl, rfl⟩

/-- C7 witness: with a one-byte metadata JSON and one-byte payload and no
fault, `create` writes the complete container. -/
theorem c7_create_no_cleanup_witness :
    create_fs (some [65]) [1] none = (.ok (), some (write_tlock_file [65] [1])) :=
  (c7_create_no_cleanup [65] [1] none).2.2.1 (by decide)

-- ===========================================================================
-- progress.rs : emission throttling (src/src-tauri/src/progress.rs:74-179, 252-258)
-- ===========================================================================

/-- `throttle_ms` as set by `ProgressTracker::new` (progress.rs:86). -/
def THROTTLE_MS : Int := 100

/-- `ProgressTracker::new` (progress.rs:76-88): the throttle state is the
`last_emit` instant, initialized to `Instant::now()` — the creation
instant itself.  Instants are modelled as milliseconds on an integer
timeline. -/
def tracker_new (creation : Int) : Int := creation

/-- `should_emit` (progress.rs:164-173): under the `last_emit` mutex,
emit (and move `last_emit` to `now`) iff at least `throttle_ms`
milliseconds elapsed since `last_emit`; `Instant::duration_since`
saturates to zero when `now` is earlier, which the `now - last`
comparison on integers reproduces.  Returns (result, new state). -/
def should_emit (now last : Int) : Bool × Int :=
  if THROTTLE_MS ≤ now - last then (true, now) else (false, last)

/-- `force_next_emit` (progress.rs:176-179): rewinds `last_emit` to
`now - (throttle_ms + 1)` so the next check succeeds. -/
def force_next_emit (now : Int) (_last : Int) : Int :=
  now - (THROTTLE_MS + 1)

/-- `ProgressEmitter::emit_complete` (progress.rs:252-258): calls
`force_next_emit` and then emits the completion payload unconditionally;
its effect on the throttle state is exactly `force_next_emit`. -/
def emit_complete_state (now last : Int) : Int :=
  force_next_emit now last

/-- The emit decision of `should_emit`, as a Boolean of the elapsed time. -/
theorem should_emit_fst (now last : Int) :
    (should_emit now last).1 = decide (THROTTLE_MS ≤ now - last) := by
  unfold should_emit
  split_ifs with h
  · simp [h]
  · simp [h]

/-- The state update of `should_emit`. -/
theorem should_emit_snd (now last : Int) :
    (should_emit now last).2 = if THROTTLE_MS ≤ now - last then now else last := by
  unfold should_emit
  split_ifs with h
  · rfl
  · rfl

/-- C9, counterexample: for a freshly created tracker, `last_emit` starts
at the creation instant, so two emit-checks in rapid succession (0 ms
and 1 ms after creation) yield `false` then `false` — not the claimed
`true` then `false`.  (The repository's own throttling test has to call
`force_next_emit` before its first assertion for this very reason.) -/
theorem c9_fresh_tracker_counterexample :
    (should_emit 0 (tracker_new 0)).1 = false ∧
      (should_emit 1 (should_emit 0 (tracker_new 0)).2).1 = false := by
  exact ⟨rfl, rfl⟩

/-- C9 (amended): a freshly created tracker throttles every check within
100 ms of creation (so two rapid calls yield `false` then `false`, not
`true` then `false`); after a `force_next_emit` the next check always
succeeds (so force-then-two-rapid-calls yields `true` then `false`);
`should_emit` never returns `true` twice within the 100 ms throttle
interval unless `force_next_emit` intervenes; and `emit_complete`
bypasses throttling by forcing, so the check following it succeeds. -/
theorem c9_throttle_behaviour (t0 now now1 now2 last : Int) :
    (now - t0 < THROTTLE_MS → (should_emit now (tracker_new t0)).1 = false) ∧
      (now ≤ now1 → (should_emit now1 (force_next_emit now last)).1 = true) ∧
      ((should_emit now1 last).1 = true → now2 - now1 < THROTTLE_MS →
        (should_emit now2 (should_emit now1 last).2).1 = false) ∧
      (now ≤ now1 → (should_emit now1 (emit_complete_state now last)).1 = true) := by
  refine ⟨?_, ?_, ?_, ?_⟩
  · intro h
    rw [should_emit_fst]
    simp only [decide_eq_false_iff_not]
    unfold tracker_new at *
    omega
  · intro h
    rw [should_emit_fst]
    simp only [decide_eq_true_eq]
    unfold force_next_emit THROTTLE_MS
    omega
  · intro h1 h2
    rw [should_emit_fst] at h1
    simp only [decide_eq_true_eq] at h1
    rw [should_emit_snd, if_pos h1, should_emit_fst]
    simp only [decide_eq_false_iff_not]
    omega
  · intro h
    rw [should_emit_fst]
    simp only [decide_eq_true_eq]
    unfold emit_complete_state force_next_emit THROTTLE_MS
    omega

/-- C9 witness: a check 50 ms after creation is throttled. -/
theorem c9_throttle_behaviour_witness :
    (should_emit 50 (tracker_new 0)).1 = false :=
  (c9_throttle_behaviour 0 50 0 0 0).1 (by decide)
